import Mathlib

/-!
Verification of the pyworker TTS sidecar (`src/workers/tts/server.py`)
against its natural-language specification.

The embedding below translates the repository's code into Lean:
pure Python functions become Lean functions, the aiohttp request/response
objects become explicit records, and raised exceptions become `Option`
(`none` = an exception escaped the function).  Components of the
repository that live in the `lib` package (Backend, LogMonitor,
AdmissionGate, MetricsState, BenchmarkRunner, the `TTSRequest` dataclass)
are not present under `src/`; those are modelled from the specification
and are marked as such in their doc comments.
-/

/-- A JSON value, as produced by `aiohttp`'s `ClientResponse.json()` or
sent as a `web.json_response` body. -/
inductive Json where
  | null : Json
  | bool (b : Bool) : Json
  | num (n : Int) : Json
  | str (s : String) : Json
  | arr (xs : List Json) : Json
  | obj (fields : List (String × Json)) : Json
deriving Repr

/-- The model server's HTTP response as seen by the worker
(`aiohttp.ClientResponse`): the status code, the raw body bytes
(`.content`), and the result of `await .json()` — `none` means the body
does not decode as JSON, in which case `.json()` raises. -/
structure UpstreamResponse where
  status : Nat
  content : String
  jsonBody : Option Json

/-- The body of an `aiohttp.web` response sent back to the client:
`web.Response()` with no body (`empty`), `web.Response(body=<str>)`
(`text`), `web.json_response(data=...)` (`json`), or a raw upstream
body passed through (`raw`). -/
inductive ClientBody where
  | empty : ClientBody
  | text (s : String) : ClientBody
  | json (j : Json) : ClientBody
  | raw (content : String) : ClientBody

/-- A client-facing HTTP response (`aiohttp.web.Response`). -/
structure WebResponse where
  status : Nat
  body : ClientBody

/-- Modelled from the spec: the TTS payload dataclass (`TTSRequest` in
`workers/tts/data_types.py`, not under `src/`).  Its field set is taken
from the client example (`src/workers/tts/client.py`): a `text` to
synthesize and a `voice_name`. -/
structure TTSRequest where
  text : String
  voice_name : String
deriving DecidableEq

/-- Modelled from the spec: `TTSRequest.for_test`, the synthetic-payload
generator used by the benchmark handler ("synthesizes a request using the
benchmark-designated handler's synthetic-payload generator"); a fixed
dummy payload. -/
def TTSRequest.for_test : TTSRequest :=
  { text := "8월 4일, 월요일. 테스트 문장입니다.", voice_name := "sample_female" }

/-- The `TTSHandler` dataclass of `src/workers/tts/server.py`.  Its only
per-instance datum is the `benchmark_runs` count passed at construction
(`TTSHandler(benchmark_runs=3)` on line 108); everything else is a
method, embedded below as functions on this structure. -/
structure TTSHandler where
  benchmark_runs : Nat
deriving DecidableEq

/-- Embedding of `TTSHandler.endpoint` (server.py lines 48-51): the API endpoint. -/
def TTSHandler.endpoint (_ : TTSHandler) : String := "/generate"

/-- Embedding of `TTSHandler.healthcheck_endpoint` (server.py lines 53-56): returns
`None` — the model server provides no handler-declared healthcheck
endpoint. -/
def TTSHandler.healthcheck_endpoint (_ : TTSHandler) : Option String := none

/-- Embedding of `dataclasses.asdict` specialised to `TTSRequest`: the dictionary of
the dataclass's fields, in declaration order. -/
def dataclasses_asdict (payload : TTSRequest) : List (String × Json) :=
  [("text", Json.str payload.text), ("voice_name", Json.str payload.voice_name)]

/-- Embedding of `TTSHandler.generate_payload_json` (server.py lines 63-70): converts a
`TTSRequest` to the JSON dictionary sent to the model API, via
`dataclasses.asdict(payload)`. -/
def TTSHandler.generate_payload_json (_ : TTSHandler) (payload : TTSRequest) :
    List (String × Json) :=
  dataclasses_asdict payload

/-- Embedding of `TTSHandler.make_benchmark_payload` (server.py lines 72-80): returns
`TTSRequest.for_test()`. -/
def TTSHandler.make_benchmark_payload (_ : TTSHandler) : TTSRequest :=
  TTSRequest.for_test

/-- Embedding of `TTSHandler.generate_client_response` (server.py lines 82-96):
matches on `model_response.status`; on `200` it awaits
`model_response.json()` (which raises when the body is not JSON —
modelled as `none`) and returns `web.json_response(data=data)`; any
other code falls to the capture pattern `case code` and returns
`web.Response(status=code)` with an empty body. -/
def TTSHandler.generate_client_response (_ : TTSHandler)
    (model_response : UpstreamResponse) : Option WebResponse :=
  match model_response.status with
  | 200 =>
      (model_response.jsonBody).map fun data =>
        { status := 200, body := ClientBody.json data }
  | code => some { status := code, body := ClientBody.empty }

/-- Embedding of `MODEL_SERVER_START_LOG_MSG` (server.py line 30): the log line emitted
once the model server has started. -/
def MODEL_SERVER_START_LOG_MSG : String := "infer server has started"

/-- Embedding of `MODEL_SERVER_ERROR_LOG_MSGS` (server.py lines 31-33): log messages
indicating an unrecoverable model-server error. -/
def MODEL_SERVER_ERROR_LOG_MSGS : List String :=
  ["Exception: corrupted model file"]

/-- Embedding of `LogAction` (from `lib.backend`, configured in server.py lines
110-117): the enumerated effect paired with each configured log
pattern. -/
inductive LogAction where
  | ModelLoaded : LogAction
  | Info : LogAction
  | ModelError : LogAction
deriving DecidableEq, Repr

/-- The `log_actions` table passed to `Backend` (server.py lines
110-117): `(ModelLoaded, start message)`, then an `Info` pattern, then
one `(ModelError, msg)` entry per configured error message. -/
def log_actions : List (LogAction × String) :=
  [(LogAction.ModelLoaded, MODEL_SERVER_START_LOG_MSG),
   (LogAction.Info, "\"message\":\"Download")] ++
  MODEL_SERVER_ERROR_LOG_MSGS.map (fun error_msg => (LogAction.ModelError, error_msg))

/-- Whether the character list `pat` occurs at the start of `l`. -/
def charsStartWith : List Char → List Char → Bool
  | [], _ => true
  | _ :: _, [] => false
  | p :: ps, c :: cs => p == c && charsStartWith ps cs

/-- Whether the character list `pat` occurs contiguously anywhere in `l`. -/
def charsContain (pat : List Char) : List Char → Bool
  | [] => charsStartWith pat []
  | c :: cs => charsStartWith pat (c :: cs) || charsContain pat cs

/-- Substring test: whether `pat` occurs in `line` (Python `pat in line`). -/
def strContains (pat line : String) : Bool :=
  charsContain pat.toList line.toList

/-- Embedding of `ReadinessState` (spec section 3): the LogMonitor-owned state, one of
Starting, Loading, Ready, Error. -/
inductive ReadinessState where
  | Starting : ReadinessState
  | Loading : ReadinessState
  | Ready : ReadinessState
  | Error : ReadinessState
deriving DecidableEq, Repr

/-- Modelled from the spec: LogMonitor's per-line classification (`lib`
is not under `src/`).  "For each new line, scans the ordered action
table"; "patterns are evaluated in declaration order; first match wins
per line".  Each pattern is matched as a literal substring of the line
(the `Info` pattern is a fragment of a longer JSON log line). -/
def classifyLine (line : String) : Option LogAction :=
  (log_actions.find? (fun a => strContains a.2 line)).map (·.1)

/-- Modelled from the spec: the effect of a classified log action on
`ReadinessState` — "ModelLoaded → Starting/Loading→Ready, Info → no
state change, ModelError → →Error", with Error "reachable from any
state and terminal" and an unmatched line causing no change. -/
def applyAction (st : ReadinessState) : Option LogAction → ReadinessState
  | some LogAction.ModelLoaded =>
      match st with
      | ReadinessState.Starting => ReadinessState.Ready
      | ReadinessState.Loading => ReadinessState.Ready
      | s => s
  | some LogAction.Info => st
  | some LogAction.ModelError => ReadinessState.Error
  | none => st

/-- Modelled from the spec: LogMonitor processing of one observed log
line — classify it against the ordered table, then apply the matched
action's effect. -/
def observeLine (st : ReadinessState) (line : String) : ReadinessState :=
  applyAction st (classifyLine line)

/-- Modelled from the spec: LogMonitor processing of a sequence of log
lines in order. -/
def observeLines (st : ReadinessState) (lines : List String) : ReadinessState :=
  lines.foldl observeLine st

/-- The admission-rejection reasons of the spec's error taxonomy
(section 7) relevant to `AdmissionGate.acquire`. -/
inductive AcquireError where
  | NotReadyError : AcquireError
  | FatalBackendError : AcquireError
deriving DecidableEq, Repr

/-- Modelled from the spec: `AdmissionGate.acquire` (`lib` is not under
`src/`).  "acquire rejects immediately when ReadinessState is not yet
Ready or is Error"; rejection while Error is `FatalBackendError`,
rejection before Ready is `NotReadyError`; once Ready, with the
unrestricted policy configured here (`allow_parallel_requests=True`),
acquire always succeeds. -/
def acquire : ReadinessState → Except AcquireError Unit
  | ReadinessState.Ready => Except.ok ()
  | ReadinessState.Error => Except.error AcquireError.FatalBackendError
  | _ => Except.error AcquireError.NotReadyError

/-- The environment a route handler runs in: the current readiness state
derived by the LogMonitor, and the model server reached through
`backend.session` — a map from request path to the upstream response. -/
structure Env where
  readiness : ReadinessState
  upstream : String → UpstreamResponse

/-- The observable outcome of running a route handler: the response sent
to the client and the list of paths requested from the model server
during handling (empty = the model server was not contacted). -/
structure HandlerResult where
  response : WebResponse
  upstreamCalls : List String

/-- Embedding of `handle_ping` (server.py lines 123-124): returns
`web.Response(body="pong")` — status 200 with body `"pong"` — without
touching the model server or inspecting any state. -/
def handle_ping (_ : Env) : HandlerResult :=
  { response := { status := 200, body := ClientBody.text "pong" },
    upstreamCalls := [] }

/-- Embedding of `handle_healthcheck` (server.py lines 128-130): awaits
`backend.session.get("/healthcheck")` on the model server and returns
`web.Response(body=healthcheck_res.content, status=healthcheck_res.status)`
— the upstream status and raw body mirrored verbatim, with no
`EndpointHandler` involved. -/
def handle_healthcheck (env : Env) : HandlerResult :=
  let healthcheck_res := env.upstream "/healthcheck"
  { response := { status := healthcheck_res.status,
                  body := ClientBody.raw healthcheck_res.content },
    upstreamCalls := ["/healthcheck"] }

/-- Modelled from the spec: `backend.create_handler(TTSHandler())`
(`lib.backend` is not under `src/`) — the Backend request lifecycle of
spec section 4.1 for an already-validated payload: call
`AdmissionGate.acquire`; on rejection respond service-unavailable (503)
without contacting the model server; on admission forward to the
handler's endpoint and build the client response via the handler's
response-transform (an exception escaping the transform is surfaced as
a bare 500). -/
def backendHandle (h : TTSHandler) (payload : TTSRequest) (env : Env) :
    HandlerResult :=
  match acquire env.readiness with
  | Except.error _ =>
      { response := { status := 503, body := ClientBody.empty },
        upstreamCalls := [] }
  | Except.ok _ =>
      let _ := h.generate_payload_json payload
      let model_response := env.upstream h.endpoint
      match h.generate_client_response model_response with
      | some resp => { response := resp, upstreamCalls := [h.endpoint] }
      | none =>
          { response := { status := 500, body := ClientBody.empty },
            upstreamCalls := [h.endpoint] }

/-- An HTTP method of the aiohttp routing table. -/
inductive Method where
  | GET : Method
  | POST : Method
deriving DecidableEq, Repr

/-- The handler instance registered on the `/generate` route
(server.py line 133): `TTSHandler()` with the dataclass-default run
count, which request handling never consults. -/
def route_handler : TTSHandler := { benchmark_runs := 0 }

/-- The `routes` table (server.py lines 132-136):
`POST /generate` → the Backend-wrapped `TTSHandler()`,
`GET /ping` → `handle_ping`, `GET /healthcheck` → `handle_healthcheck`.
The `/generate` route is shown applied to a given payload. -/
def routes (payload : TTSRequest) : List (Method × String × (Env → HandlerResult)) :=
  [(Method.POST, "/generate", backendHandle route_handler payload),
   (Method.GET, "/ping", handle_ping),
   (Method.GET, "/healthcheck", handle_healthcheck)]

/-- Route dispatch: find the first route whose method and path match the
request and run its handler. -/
def dispatch (payload : TTSRequest) (m : Method) (path : String) (env : Env) :
    Option HandlerResult :=
  ((routes payload).find? (fun r => r.1 == m && r.2.1 == path)).map
    (fun r => r.2.2 env)

/-- Modelled from the spec: `MetricsState` (section 3) — process-wide
counters `pending`, `in_flight`, and the cumulative latency samples. -/
structure MetricsState where
  pending : Nat
  in_flight : Nat
  latencySamples : List Nat
deriving DecidableEq, Repr

/-- Modelled from the spec: the MetricsState mutation when a request is
forwarded to the model server — `in_flight` is incremented. -/
def requestForwarded (m : MetricsState) : MetricsState :=
  { m with in_flight := m.in_flight + 1 }

/-- Modelled from the spec: the MetricsState mutation on request
completion — `in_flight` is decremented and the measured latency is
recorded. -/
def requestCompleted (m : MetricsState) (latency : Nat) : MetricsState :=
  { m with in_flight := m.in_flight - 1,
           latencySamples := m.latencySamples ++ [latency] }

/-- Modelled from the spec: one synthetic benchmark run (section 4.4) —
the run "synthesizes a request using the benchmark-designated handler's
synthetic-payload generator, drives it through the same Backend.handle
path as real traffic, and feeds the resulting latency into
MetricsState".  Returns the updated metrics and the payload driven. -/
def benchmarkOnce (h : TTSHandler) (m : MetricsState) (latency : Nat) :
    MetricsState × TTSRequest :=
  let payload := h.make_benchmark_payload
  (requestCompleted (requestForwarded m) latency, payload)

/-- Iteration core of the BenchmarkRunner: run `n` more synthetic runs,
threading the metrics accumulator and collecting the payloads driven
(the latency of run `i` given by `latencies i`). -/
def benchmarkLoop (h : TTSHandler) (latencies : Nat → Nat) :
    Nat → MetricsState → List TTSRequest → MetricsState × List TTSRequest
  | 0, acc, ps => (acc, ps)
  | n + 1, acc, ps =>
      let (acc', p) := benchmarkOnce h acc (latencies ps.length)
      benchmarkLoop h latencies n acc' (ps ++ [p])

/-- Modelled from the spec: `BenchmarkRunner` (section 4.4) — executes
`h.benchmark_runs` synthetic runs in sequence, accumulating into
MetricsState; the run results are consumed internally for metrics only,
so the client-visible traffic produced is the empty list of
responses. -/
def benchmarkRunner (h : TTSHandler) (m : MetricsState) (latencies : Nat → Nat) :
    MetricsState × List TTSRequest × List WebResponse :=
  let (m', ps) := benchmarkLoop h latencies h.benchmark_runs m []
  (m', ps, [])

/-- The benchmark handler instance given to the Backend (server.py line
108): `TTSHandler(benchmark_runs=3)`. -/
def benchmark_handler : TTSHandler := { benchmark_runs := 3 }

/-- Modelled from the spec: the handler-mediated healthcheck proxying of
section 4.1/6 — the Backend "proxies verbatim to the model server's
healthcheck path when declared"; the list of upstream healthcheck paths
the handler mechanism would proxy to, empty when no healthcheck path is
declared. -/
def handlerHealthcheckProxyTargets (h : TTSHandler) : List String :=
  match h.healthcheck_endpoint with
  | some p => [p]
  | none => []

/-- A line observed while the state is already `Error` leaves it in
`Error`, whatever action it matches. -/
theorem applyAction_error_absorbing (a : Option LogAction) :
    applyAction ReadinessState.Error a = ReadinessState.Error := by
  cases a with
  | none => rfl
  | some act => cases act <;> rfl

/-- A whole sequence of lines observed from `Error` leaves the state in
`Error`. -/
theorem observeLines_from_error (lines : List String) :
    observeLines ReadinessState.Error lines = ReadinessState.Error := by
  induction lines with
  | nil => rfl
  | cons l ls ih =>
      show observeLines (observeLine ReadinessState.Error l) ls = ReadinessState.Error
      have hl : observeLine ReadinessState.Error l = ReadinessState.Error :=
        applyAction_error_absorbing (classifyLine l)
      rw [hl, ih]

/-- C1: the claim as stated is false — `generate_client_response` can
let a fault escape: on an upstream response with status 200 whose body
does not decode as JSON, `await model_response.json()` raises and no
client response is produced (result `none`). -/
theorem c1_counterexample :
    TTSHandler.generate_client_response route_handler
      { status := 200, content := "<html>error</html>", jsonBody := none } =
      none := rfl

/-- The non-200 branch of `generate_client_response`: any status other
than 200 falls to the capture pattern and yields
`web.Response(status=code)` with an empty body, for any body. -/
theorem generate_client_response_of_ne (h : TTSHandler) (r : UpstreamResponse)
    (hs : r.status ≠ 200) :
    h.generate_client_response r =
      some { status := r.status, body := ClientBody.empty } := by
  rcases r with ⟨s, c, j⟩
  unfold TTSHandler.generate_client_response
  split
  · rename_i heq
    exact absurd heq hs
  · rfl

/-- C1 (amended): the match on `model_response.status` has a defined
branch for every possible status value — every upstream response whose
status is not 200 (including unknown codes, whatever its body), and
every 200 response whose body decodes as JSON, yields a defined client
response; the only possible fault is the JSON decode on the 200 branch,
never an unmatched status. -/
theorem c1_defined_for_every_status (h : TTSHandler) (r : UpstreamResponse)
    (hd : r.status ≠ 200 ∨ r.jsonBody.isSome = true) :
    ∃ resp, h.generate_client_response r = some resp := by
  by_cases hs : r.status = 200
  · rcases hd with hs' | hj
    · exact absurd hs hs'
    · rcases r with ⟨s, c, j⟩
      rcases j with _ | d
      · simp at hj
      · cases hs
        exact ⟨{ status := 200, body := ClientBody.json d }, rfl⟩
  · exact ⟨_, generate_client_response_of_ne h r hs⟩

/-- C1 amended-theorem witness: at the concrete unknown status 404 with
an undecodable body, a defined client response exists. -/
theorem c1_defined_witness :
    ∃ resp, TTSHandler.generate_client_response route_handler
      { status := 404, content := "", jsonBody := none } = some resp :=
  c1_defined_for_every_status route_handler
    { status := 404, content := "", jsonBody := none } (Or.inl (by decide))

/-- C2: the claim as stated is false — although
`TTSHandler.healthcheck_endpoint` is `None`, a `GET /healthcheck`
request IS proxied to the model server's `/healthcheck` path, by the
separately registered raw route `handle_healthcheck`; shown here at a
concrete environment. -/
theorem c2_counterexample :
    TTSHandler.healthcheck_endpoint route_handler = none ∧
    (dispatch TTSRequest.for_test Method.GET "/healthcheck"
        { readiness := ReadinessState.Starting,
          upstream := fun _ =>
            { status := 503, content := "unhealthy", jsonBody := none } }).map
      (fun res => res.upstreamCalls) = some ["/healthcheck"] :=
  ⟨rfl, rfl⟩

/-- C2 (amended): with `TTSHandler.healthcheck_endpoint = None` there is
no handler-declared healthcheck path, so no handler-mediated upstream
healthcheck proxying occurs for the handler; however, the program
separately registers the raw route `handle_healthcheck`, which does
proxy every `GET /healthcheck` request to the model server's
`/healthcheck` path. -/
theorem c2_no_handler_healthcheck (payload : TTSRequest) (env : Env) :
    TTSHandler.healthcheck_endpoint route_handler = none ∧
    handlerHealthcheckProxyTargets route_handler = [] ∧
    (dispatch payload Method.GET "/healthcheck" env).map
      (fun res => res.upstreamCalls) = some ["/healthcheck"] :=
  ⟨rfl, rfl, rfl⟩

/-- C3: once a log line classified by the ordered action table as
`ModelError` ("Exception: corrupted model file") is observed, the
readiness state is `Error` after that line and after every subsequent
sequence of lines — it never transitions back to `Ready` — and every
subsequent admission attempt fails with `FatalBackendError`. -/
theorem c3_error_is_permanent (st : ReadinessState) (line : String)
    (hc : classifyLine line = some LogAction.ModelError) (rest : List String) :
    observeLines (observeLine st line) rest = ReadinessState.Error ∧
    acquire (observeLines (observeLine st line) rest) =
      Except.error AcquireError.FatalBackendError := by
  have h1 : observeLine st line = ReadinessState.Error := by
    unfold observeLine
    rw [hc]
    cases st <;> rfl
  rw [h1, observeLines_from_error]
  exact ⟨rfl, rfl⟩

/-- C3 witness: from `Ready`, observing the configured corrupted-model
log line and then even the start-message line leaves the state in
`Error`, and admission fails with `FatalBackendError`. -/
theorem c3_error_witness :
    observeLines
        (observeLine ReadinessState.Ready "Exception: corrupted model file")
        [ MODEL_SERVER_START_LOG_MSG ] = ReadinessState.Error ∧
    acquire (observeLines
        (observeLine ReadinessState.Ready "Exception: corrupted model file")
        [ MODEL_SERVER_START_LOG_MSG ]) =
      Except.error AcquireError.FatalBackendError :=
  c3_error_is_permanent ReadinessState.Ready "Exception: corrupted model file"
    (by decide) [ MODEL_SERVER_START_LOG_MSG ]

/-- C4: a model-server response with status 200 and a JSON body is
returned to the client as status 200 with that JSON body unmodified,
and a status-500 response yields the defined (non-crashing) error
response `web.Response(status=500)`, whatever its body. -/
theorem c4_success_and_500 (h : TTSHandler) (data : Json)
    (c1 c2 : String) (b : Option Json) :
    h.generate_client_response { status := 200, content := c1, jsonBody := some data } =
      some { status := 200, body := ClientBody.json data } ∧
    h.generate_client_response { status := 500, content := c2, jsonBody := b } =
      some { status := 500, body := ClientBody.empty } :=
  ⟨rfl, rfl⟩

/-- C5: the configured start line "infer server has started" is
classified by the ordered action table as `ModelLoaded`; observing it
transitions readiness from `Starting` or `Loading` to `Ready`, after
which admission of a generation request succeeds. -/
theorem c5_start_line_ready :
    classifyLine MODEL_SERVER_START_LOG_MSG = some LogAction.ModelLoaded ∧
    observeLine ReadinessState.Starting MODEL_SERVER_START_LOG_MSG =
      ReadinessState.Ready ∧
    observeLine ReadinessState.Loading MODEL_SERVER_START_LOG_MSG =
      ReadinessState.Ready ∧
    acquire ReadinessState.Ready = Except.ok () := by
  refine ⟨by decide, by decide, by decide, rfl⟩

/-- C6: every `GET /ping` request is answered with status 200 and the
fixed body "pong", with no call made to the model server, in every
environment — any readiness state, Error included. -/
theorem c6_ping_always_pong (payload : TTSRequest) (env : Env) :
    dispatch payload Method.GET "/ping" env =
      some { response := { status := 200, body := ClientBody.text "pong" },
             upstreamCalls := [] } :=
  rfl

/-- C7: the `GET /healthcheck` pass-through mirrors the upstream
healthcheck response — the client response's status equals the upstream
status and its body is the upstream body passed through raw — with no
`EndpointHandler` transform involved (the result is the same for every
payload and handler state). -/
theorem c7_healthcheck_mirrors (payload : TTSRequest) (env : Env) :
    dispatch payload Method.GET "/healthcheck" env =
      some { response := { status := (env.upstream "/healthcheck").status,
                           body := ClientBody.raw (env.upstream "/healthcheck").content },
             upstreamCalls := ["/healthcheck"] } :=
  rfl

/-- C8: with the benchmark handler configured as
`TTSHandler(benchmark_runs=3)`, the BenchmarkRunner performs exactly 3
synthetic runs of the benchmark payload `TTSRequest.for_test`, the
latency sample count grows by exactly 3, and no client-visible traffic
is produced — for every starting MetricsState and every latency
outcome. -/
theorem c8_benchmark_three_runs (m : MetricsState) (lats : Nat → Nat) :
    (benchmarkRunner benchmark_handler m lats).1.latencySamples.length =
      m.latencySamples.length + 3 ∧
    (benchmarkRunner benchmark_handler m lats).2.1 =
      List.replicate 3 TTSRequest.for_test ∧
    (benchmarkRunner benchmark_handler m lats).2.2 = [] := by
  refine ⟨?_, rfl, rfl⟩
  simp [benchmarkRunner, benchmark_handler, benchmarkLoop, benchmarkOnce,
    requestCompleted, requestForwarded]

/-- C9: `generate_payload_json` returns exactly the dictionary of the
payload's dataclass fields — the keys are precisely `text` and
`voice_name` with the payload's own values, nothing added, dropped or
altered — and it is deterministic: equal payloads yield equal outbound
JSON. -/
theorem c9_payload_json_exact (h : TTSHandler) (p q : TTSRequest) :
    h.generate_payload_json p =
      [("text", Json.str p.text), ("voice_name", Json.str p.voice_name)] ∧
    (p = q → h.generate_payload_json p = h.generate_payload_json q) :=
  ⟨rfl, fun hpq => by rw [hpq]⟩

/-- C9 witness: at the concrete test payload, the outbound JSON is
exactly the two dataclass fields, and the repeated call agrees. -/
theorem c9_payload_json_witness :
    TTSHandler.generate_payload_json route_handler TTSRequest.for_test =
      [("text", Json.str TTSRequest.for_test.text),
       ("voice_name", Json.str TTSRequest.for_test.voice_name)] ∧
    TTSHandler.generate_payload_json route_handler TTSRequest.for_test =
      TTSHandler.generate_payload_json route_handler TTSRequest.for_test :=
  ⟨(c9_payload_json_exact route_handler TTSRequest.for_test TTSRequest.for_test).1,
   (c9_payload_json_exact route_handler TTSRequest.for_test TTSRequest.for_test).2 rfl⟩

/-- C10: every upstream response with a non-200 status is turned into a
client response with the same status and an empty body, and the
upstream body is never read or forwarded — the result is unchanged
under any replacement of the raw body and of its JSON decoding. -/
theorem c10_non200_status_mirrored_empty_body (h : TTSHandler)
    (r : UpstreamResponse) (hs : r.status ≠ 200) :
    h.generate_client_response r =
      some { status := r.status, body := ClientBody.empty } ∧
    ∀ (c : String) (b : Option Json),
      h.generate_client_response { status := r.status, content := c, jsonBody := b } =
        h.generate_client_response r := by
  have h1 := generate_client_response_of_ne h r hs
  refine ⟨h1, fun c b => ?_⟩
  rw [h1, generate_client_response_of_ne h { status := r.status, content := c, jsonBody := b } hs]

/-- C10 witness: at the concrete status 418 with a decodable JSON body,
the client response is 418 with an empty body, and replacing the body
changes nothing. -/
theorem c10_non200_witness :
    TTSHandler.generate_client_response route_handler
      { status := 418, content := "teapot", jsonBody := some Json.null } =
      some { status := 418, body := ClientBody.empty } ∧
    TTSHandler.generate_client_response route_handler
      { status := 418, content := "other", jsonBody := none } =
      TTSHandler.generate_client_response route_handler
      { status := 418, content := "teapot", jsonBody := some Json.null } :=
  ⟨(c10_non200_status_mirrored_empty_body route_handler
      { status := 418, content := "teapot", jsonBody := some Json.null }
      (by decide)).1,
   (c10_non200_status_mirrored_empty_body route_handler
      { status := 418, content := "teapot", jsonBody := some Json.null }
      (by decide)).2 "other" none⟩
